import Mathlib

/-!
# appleseed `foundation::Tile` (src/appleseed/foundation/image/tile.cpp)

A shallow embedding of the four `Tile` constructors, the destructor and the
serialization stubs, over an explicit model of the free store.

* `size_t` is a natural number below `2 ^ 64`; every `size_t` multiplication of
  the source is reduced modulo `2 ^ 64`.
* A `uint8*` is an address (a natural number), `0` being the null pointer.
* The free store is a byte-addressed memory with a bump allocator, and a trace
  of the calls on that memory that leave the class: `new[]`, `delete[]`,
  `Pixel::convert`, `Pixel::convert_and_shuffle`.
* The `Pixel` class (foundation/image/pixel.h) is not part of the sources at
  hand: its static functions are taken as a parameter.
* `assert` is the checked C assertion: a failed assertion ends the call.

The file ends with `write_sequence` and `write_sequence_quotes` of
src/appleseed/foundation/utility/iostreamop.h, a stream being the list of the
characters written to it.
-/

namespace foundation

/-- Number of values of the type `size_t` (64-bit target). -/
def SIZE_T_RANGE : Nat := 2 ^ 64

/-- Conversion of a natural number to `size_t`. -/
def to_size_t (n : Nat) : Nat := n % SIZE_T_RANGE

/-- Product of two `size_t` values, `a * b` in the source: it wraps around. -/
def size_t_mul (a b : Nat) : Nat := to_size_t (a * b)

/-- The enumeration `PixelFormat`, an enumerator being given by its integer value. -/
abbrev PixelFormat := Nat

/-- One byte, `uint8` in the source. -/
abbrev uint8 := UInt8

/-- Contents of the memory: the byte stored at each address. -/
abbrev Bytes := Nat → uint8

/-- Calls that leave the `Tile` class and act on the memory, in the order they are made
(`Pixel::size` and `Pixel::get_dest_channel_count` only compute a value). -/
inductive Event where
  /-- `new uint8[size]` returned `base`. -/
  | new_array (base size : Nat)
  /-- `delete [] base`. -/
  | delete_array (base : Nat)
  /-- `Pixel::convert(src_format, src_begin, src_end, src_stride, dest_format, dest, dest_stride)`. -/
  | convert (src_format : PixelFormat) (src_begin src_end src_stride : Nat)
      (dest_format : PixelFormat) (dest dest_stride : Nat)
  /-- `Pixel::convert_and_shuffle(src_format, src_channels, src_begin, src_end,
  dest_format, dest_channels, dest, shuffle_table)`. -/
  | convert_and_shuffle (src_format : PixelFormat) (src_channels src_begin src_end : Nat)
      (dest_format : PixelFormat) (dest_channels dest : Nat) (shuffle_table : List Nat)
  deriving DecidableEq, Repr

/-- The static member functions of the class `Pixel` that `tile.cpp` calls.
`shuffle_table` (a `const size_t*`) is given by the array it points to; the two
functions that return a `size_t` return a value of that type. -/
structure Pixel where
  /-- `Pixel::size(format)`: size in bytes of one channel. -/
  size : PixelFormat → Nat
  /-- `Pixel::get_dest_channel_count(src_channels, shuffle_table)`. -/
  get_dest_channel_count : Nat → List Nat → Nat
  /-- `Pixel::convert`, as the change it makes to the memory. -/
  convert : PixelFormat → Nat → Nat → Nat → PixelFormat → Nat → Nat → Bytes → Bytes
  /-- `Pixel::convert_and_shuffle`, as the change it makes to the memory. -/
  convert_and_shuffle :
    PixelFormat → Nat → Nat → Nat → PixelFormat → Nat → Nat → List Nat → Bytes → Bytes
  /-- `Pixel::size` returns a `size_t`. -/
  size_lt : ∀ f, size f < SIZE_T_RANGE
  /-- `Pixel::get_dest_channel_count` returns a `size_t`. -/
  get_dest_channel_count_lt : ∀ c t, get_dest_channel_count c t < SIZE_T_RANGE

/-- The free store and the trace of outgoing calls. -/
structure Memory where
  /-- The byte at each address. -/
  bytes : Bytes
  /-- First address that no object has occupied yet. -/
  brk : Nat
  /-- Outgoing calls made so far, oldest first. -/
  trace : List Event

/-- `new uint8[n]`: a block of `n` bytes at an address no object has occupied;
a block of no bytes still gets an address of its own. -/
def new_uint8_array (n : Nat) (m : Memory) : Nat × Memory :=
  (m.brk, { m with brk := m.brk + max n 1, trace := m.trace ++ [Event.new_array m.brk n] })

/-- `delete [] p`. -/
def delete_uint8_array (p : Nat) (m : Memory) : Memory :=
  { m with trace := m.trace ++ [Event.delete_array p] }

/-- `std::memcpy(dest, src, n)` on the memory contents. -/
def memcpy (dest src n : Nat) (b : Bytes) : Bytes :=
  fun a => if dest ≤ a ∧ a < dest + n then b (src + (a - dest)) else b a

/-- The `n` bytes stored from address `p` on. -/
def read_bytes (b : Bytes) (p n : Nat) : List uint8 :=
  (List.range n).map (fun i => b (p + i))

/-- Store of one byte `v` at address `a`. -/
def write_byte (a : Nat) (v : uint8) (b : Bytes) : Bytes :=
  fun x => if x = a then v else b x

/-- What ends a call without a result. -/
inductive Exception where
  /-- A failed `assert`. -/
  | assertion_failed
  /-- `throw ExceptionNotImplemented()`. -/
  | ExceptionNotImplemented
  deriving DecidableEq, Repr

/-- Data members of `foundation::Tile`. -/
structure Tile where
  m_width : Nat
  m_height : Nat
  m_channel_count : Nat
  m_pixel_format : PixelFormat
  m_pixel_count : Nat
  m_channel_size : Nat
  m_pixel_size : Nat
  m_array_size : Nat
  m_pixel_array : Nat
  m_own_storage : Bool
  deriving DecidableEq, Repr

/-- The block `if (storage) ... else ...` shared by three constructors: the pixel
array, whether it is owned, and the memory afterwards. -/
def allocate_pixel_array (storage array_size : Nat) (m : Memory) : Nat × Bool × Memory :=
  if storage ≠ 0 then
    (storage, false, m)
  else
    ((new_uint8_array array_size m).1, true, (new_uint8_array array_size m).2)

/-- `Tile::Tile(width, height, channel_count, pixel_format, storage)`: construct a new tile. -/
def Tile.Tile_new (P : Pixel) (width height channel_count : Nat) (pixel_format : PixelFormat)
    (storage : Nat) (m : Memory) : Except Exception (Tile × Memory) :=
  if ¬ (width > 0) then Except.error Exception.assertion_failed
  else if ¬ (height > 0) then Except.error Exception.assertion_failed
  else if ¬ (channel_count > 0) then Except.error Exception.assertion_failed
  else
    let m_pixel_count := size_t_mul width height
    let m_channel_size := P.size pixel_format
    let m_pixel_size := size_t_mul m_channel_size channel_count
    let m_array_size := size_t_mul m_pixel_size m_pixel_count
    let a := allocate_pixel_array storage m_array_size m
    Except.ok
      ({ m_width := width, m_height := height, m_channel_count := channel_count,
         m_pixel_format := pixel_format, m_pixel_count := m_pixel_count,
         m_channel_size := m_channel_size, m_pixel_size := m_pixel_size,
         m_array_size := m_array_size, m_pixel_array := a.1, m_own_storage := a.2.1 },
       a.2.2)

/-- `Tile::Tile(tile, pixel_format, storage)`: convert an existing tile to a given pixel format. -/
def Tile.Tile_convert (P : Pixel) (tile : Tile) (pixel_format : PixelFormat)
    (storage : Nat) (m : Memory) : Tile × Memory :=
  let m_channel_size := P.size pixel_format
  let m_pixel_size := size_t_mul m_channel_size tile.m_channel_count
  let m_array_size := size_t_mul m_pixel_size tile.m_pixel_count
  let a := allocate_pixel_array storage m_array_size m
  ({ m_width := tile.m_width, m_height := tile.m_height,
     m_channel_count := tile.m_channel_count, m_pixel_format := pixel_format,
     m_pixel_count := tile.m_pixel_count, m_channel_size := m_channel_size,
     m_pixel_size := m_pixel_size, m_array_size := m_array_size,
     m_pixel_array := a.1, m_own_storage := a.2.1 },
   { a.2.2 with
     bytes := P.convert tile.m_pixel_format tile.m_pixel_array
       (tile.m_pixel_array + tile.m_array_size) 1 pixel_format a.1 1 a.2.2.bytes,
     trace := a.2.2.trace ++ [Event.convert tile.m_pixel_format tile.m_pixel_array
       (tile.m_pixel_array + tile.m_array_size) 1 pixel_format a.1 1] })

/-- `Tile::Tile(tile, pixel_format, shuffle_table, storage)`: convert an existing tile to a
given pixel format, allowing reordering, replication and deletion of channels. -/
def Tile.Tile_shuffle (P : Pixel) (tile : Tile) (pixel_format : PixelFormat)
    (shuffle_table : List Nat) (storage : Nat) (m : Memory) : Tile × Memory :=
  let m_channel_count := P.get_dest_channel_count tile.m_channel_count shuffle_table
  let m_channel_size := P.size pixel_format
  let m_pixel_size := size_t_mul m_channel_size m_channel_count
  let m_array_size := size_t_mul m_pixel_size tile.m_pixel_count
  let a := allocate_pixel_array storage m_array_size m
  ({ m_width := tile.m_width, m_height := tile.m_height,
     m_channel_count := m_channel_count, m_pixel_format := pixel_format,
     m_pixel_count := tile.m_pixel_count, m_channel_size := m_channel_size,
     m_pixel_size := m_pixel_size, m_array_size := m_array_size,
     m_pixel_array := a.1, m_own_storage := a.2.1 },
   { a.2.2 with
     bytes := P.convert_and_shuffle tile.m_pixel_format tile.m_channel_count
       tile.m_pixel_array (tile.m_pixel_array + tile.m_array_size) pixel_format
       m_channel_count a.1 shuffle_table a.2.2.bytes,
     trace := a.2.2.trace ++ [Event.convert_and_shuffle tile.m_pixel_format
       tile.m_channel_count tile.m_pixel_array (tile.m_pixel_array + tile.m_array_size)
       pixel_format m_channel_count a.1 shuffle_table] })

/-- `Tile::Tile(const Tile& rhs)`: copy constructor. -/
def Tile.Tile_copy (rhs : Tile) (m : Memory) : Tile × Memory :=
  let a := new_uint8_array rhs.m_array_size m
  ({ m_width := rhs.m_width, m_height := rhs.m_height,
     m_channel_count := rhs.m_channel_count, m_pixel_format := rhs.m_pixel_format,
     m_pixel_count := rhs.m_pixel_count, m_channel_size := rhs.m_channel_size,
     m_pixel_size := rhs.m_pixel_size, m_array_size := rhs.m_array_size,
     m_pixel_array := a.1, m_own_storage := true },
   { a.2 with bytes := memcpy a.1 rhs.m_pixel_array rhs.m_array_size a.2.bytes })

/-- `Tile::~Tile()`: destructor. -/
def Tile.destroy (t : Tile) (m : Memory) : Memory :=
  if t.m_own_storage then delete_uint8_array t.m_pixel_array m else m

/-- What `serialize` and `deserialize` see and may change: the tile itself, the object
behind the handle they are given, and the memory. -/
abbrev World (S : Type) := Tile × S × Memory

/-- `Tile::serialize(serializer)`: `throw ExceptionNotImplemented(); return serializer;`,
the handle `serializer` (a `Serializer*`) being an address. -/
def Tile.serialize {S : Type} (serializer : Nat) : ExceptT Exception (StateM (World S)) Nat := do
  throw Exception.ExceptionNotImplemented
  return serializer

/-- `Tile::deserialize(deserializer)`: `throw ExceptionNotImplemented(); return deserializer;`,
the handle `deserializer` (a `Deserializer*`) being an address. -/
def Tile.deserialize {D : Type} (deserializer : Nat) :
    ExceptT Exception (StateM (World D)) Nat := do
  throw Exception.ExceptionNotImplemented
  return deserializer

/-- Blocks obtained from `new[]` in a trace: address and length, oldest first. -/
def allocations (tr : List Event) : List (Nat × Nat) :=
  tr.filterMap (fun e => match e with
    | Event.new_array base size => some (base, size)
    | _ => none)

/-- Addresses handed to `delete[]` in a trace, oldest first. -/
def releases (tr : List Event) : List Nat :=
  tr.filterMap (fun e => match e with
    | Event.delete_array base => some base
    | _ => none)

/-- Calls of `Pixel::convert` and `Pixel::convert_and_shuffle` in a trace, oldest first. -/
def conversions (tr : List Event) : List Event :=
  tr.filter (fun e => match e with
    | Event.convert _ _ _ _ _ _ _ => true
    | Event.convert_and_shuffle _ _ _ _ _ _ _ _ => true
    | _ => false)

/-- What a constructor that takes optional storage owes about it. With storage: the pixel
array is that storage, nothing is allocated, the tile does not own it and its destructor
releases nothing. Without: one block of `m_array_size` bytes is allocated, it is the pixel
array, the tile owns it and its destructor releases it, and nothing else. -/
def storage_contract (storage : Nat) (m : Memory) (t : Tile) (m1 : Memory) : Prop :=
  (storage ≠ 0 →
    t.m_pixel_array = storage ∧ t.m_own_storage = false ∧
    allocations m1.trace = allocations m.trace ∧
    releases m1.trace = releases m.trace ∧
    releases (t.destroy m1).trace = releases m1.trace) ∧
  (storage = 0 →
    t.m_pixel_array = m.brk ∧ t.m_own_storage = true ∧
    allocations m1.trace = allocations m.trace ++ [(t.m_pixel_array, t.m_array_size)] ∧
    releases m1.trace = releases m.trace ∧
    releases (t.destroy m1).trace = releases m1.trace ++ [t.m_pixel_array])

/-- Modelled from the spec: the class `Pixel` (foundation/image/pixel.h) is not among the
sources. Section 6 of the spec asks of the pixel-conversion collaborator `size_of(format)`,
`dest_channel_count`, `convert` and `convert_and_shuffle`. Here format `0` is the 8-bit
format, `1` the 16-bit one and every other one a 32-bit one; the shuffle table holds, for
each source channel, its destination channel or the marker `2 ^ 64 - 1` that omits it;
a conversion between equal formats that keeps every channel copies the source bytes, and
no other conversion is specified (it leaves the memory as it is). -/
def stub_Pixel : Pixel where
  size := fun f => if f = 0 then 1 else if f = 1 then 2 else 4
  get_dest_channel_count := fun src_channels shuffle_table =>
    to_size_t ((shuffle_table.take src_channels).filter (fun c => c ≠ 2 ^ 64 - 1)).length
  convert := fun src_format src_begin src_end _ dest_format dest _ b =>
    if src_format = dest_format then memcpy dest src_begin (src_end - src_begin) b else b
  convert_and_shuffle :=
    fun src_format src_channels src_begin src_end dest_format dest_channels dest _ b =>
      if src_format = dest_format ∧ src_channels = dest_channels then
        memcpy dest src_begin (src_end - src_begin) b
      else b
  size_lt := fun f => by
    show (if f = 0 then 1 else if f = 1 then 2 else 4) < 2 ^ 64
    split_ifs <;> norm_num
  get_dest_channel_count_lt := fun _ _ => Nat.mod_lt _ (by unfold SIZE_T_RANGE; positivity)

/-- A free store in which nothing has been allocated, every byte being `0`. -/
def empty_memory : Memory := { bytes := fun _ => 0, brk := 1, trace := [] }

/-- The tile of the example of the spec, width 4, height 2, 3 channels of the 8-bit format,
as the constructor of a new tile builds it in `empty_memory`. -/
def example_tile : Tile :=
  { m_width := 4, m_height := 2, m_channel_count := 3, m_pixel_format := 0,
    m_pixel_count := 8, m_channel_size := 1, m_pixel_size := 3, m_array_size := 24,
    m_pixel_array := 1, m_own_storage := true }

/-- The memory after `example_tile` has been built in `empty_memory` and its pixel array
filled with the bytes `0, 1, ..., 23`. -/
def example_memory : Memory :=
  { bytes := fun a => if 1 ≤ a ∧ a < 25 then UInt8.ofNat (a - 1) else 0,
    brk := 25, trace := [Event.new_array 1 24] }

/-- A tile of width 4, height 2 and 4 channels of the 8-bit format, as the constructor of
a new tile builds it in `empty_memory`. -/
def rgba_tile : Tile :=
  { m_width := 4, m_height := 2, m_channel_count := 4, m_pixel_format := 0,
    m_pixel_count := 8, m_channel_size := 1, m_pixel_size := 4, m_array_size := 32,
    m_pixel_array := 1, m_own_storage := true }

/-- The memory after `rgba_tile` has been built in `empty_memory`. -/
def rgba_memory : Memory :=
  { bytes := fun _ => 0, brk := 33, trace := [Event.new_array 1 32] }

/-- The size invariant as the spec words it, over the natural numbers:
`pixel_count = width * height`, `channel_size = size_of(pixel_format)`,
`pixel_size = channel_size * channel_count` and
`array_size = width * height * channel_count * channel_size`. -/
def size_invariant_exact (P : Pixel) (t : Tile) : Prop :=
  t.m_pixel_count = t.m_width * t.m_height ∧
  t.m_channel_size = P.size t.m_pixel_format ∧
  t.m_pixel_size = t.m_channel_size * t.m_channel_count ∧
  t.m_array_size = t.m_width * t.m_height * t.m_channel_count * t.m_channel_size

/-- The size invariant in the arithmetic of `size_t`: the same four equations, each
product reduced modulo `2 ^ 64`. -/
def size_invariant (P : Pixel) (t : Tile) : Prop :=
  t.m_pixel_count = (t.m_width * t.m_height) % 2 ^ 64 ∧
  t.m_channel_size = P.size t.m_pixel_format ∧
  t.m_pixel_size = (t.m_channel_size * t.m_channel_count) % 2 ^ 64 ∧
  t.m_array_size = (t.m_width * t.m_height * t.m_channel_count * t.m_channel_size) % 2 ^ 64

/-- None of the three products of the size invariant overflows `size_t`. -/
def sizes_fit (t : Tile) : Prop :=
  t.m_width * t.m_height < 2 ^ 64 ∧
  t.m_channel_size * t.m_channel_count < 2 ^ 64 ∧
  t.m_width * t.m_height * t.m_channel_count * t.m_channel_size < 2 ^ 64

/-- The tile owns its pixel array only if that array is the last block obtained from
`new[]` since the trace `before`, and the block has exactly `m_array_size` bytes. -/
def owned_block_matches (before : List Event) (t : Tile) (m1 : Memory) : Prop :=
  t.m_own_storage = true →
    allocations m1.trace = allocations before ++ [(t.m_pixel_array, t.m_array_size)]

/-- Two tiles have the same scalar attributes: dimensions, channel count, format and the
four derived sizes. -/
def same_scalars (a b : Tile) : Prop :=
  a.m_width = b.m_width ∧ a.m_height = b.m_height ∧
  a.m_channel_count = b.m_channel_count ∧ a.m_pixel_format = b.m_pixel_format ∧
  a.m_pixel_count = b.m_pixel_count ∧ a.m_channel_size = b.m_channel_size ∧
  a.m_pixel_size = b.m_pixel_size ∧ a.m_array_size = b.m_array_size

/-! ### Size accounting (tile.cpp) -/

/-- Sum of two `size_t` values, `a + b` in the source: it wraps around. -/
def size_t_add (a b : Nat) : Nat := to_size_t (a + b)

/-- Modelled from the spec: `Tile::get_size()` is defined in tile.h, which is not among the
sources. Section 4.1 of the spec: the tile "exposes the logical byte size of the buffer
(`array_size`)". -/
def Tile.get_size (t : Tile) : Nat := t.m_array_size

/-- `dynamic_sizeof(tile)`: `sizeof(Tile) + tile.get_size()`. The constant `sizeof(Tile)`
depends on the declaration of the class in tile.h and on the target: it is the parameter
`sizeof_Tile`. -/
def dynamic_sizeof (sizeof_Tile : Nat) (tile : Tile) : Nat :=
  size_t_add sizeof_Tile tile.get_size

/-- The `Tile` object, `sizeof_Tile` bytes at the address `self`, and the pixel array of
the tile, `m_array_size` bytes at `m_pixel_array`, are two regions of the 64-bit address
space that do not overlap, neither of them at the null address. -/
def in_address_space (sizeof_Tile self : Nat) (t : Tile) : Prop :=
  0 < self ∧ self + sizeof_Tile ≤ 2 ^ 64 ∧
  0 < t.m_pixel_array ∧ t.m_pixel_array + t.m_array_size ≤ 2 ^ 64 ∧
  (self + sizeof_Tile ≤ t.m_pixel_array ∨ t.m_pixel_array + t.m_array_size ≤ self)

/-- The figure `dynamic_sizeof` reports for a tile that owns its pixel array is the
footprint of the tile: the size of the object plus the length of the block that was
allocated for the pixel array, the last one obtained from `new[]` since the trace
`before`. -/
def reports_footprint (sizeof_Tile : Nat) (before : List Event) (t : Tile) (m1 : Memory) :
    Prop :=
  t.m_own_storage = true →
    ∃ len, allocations m1.trace = allocations before ++ [(t.m_pixel_array, len)] ∧
      dynamic_sizeof sizeof_Tile t = sizeof_Tile + len

/-! ### Stream output of sequences (src/appleseed/foundation/utility/iostreamop.h) -/

/-- Difference of two `size_t` values, `a - b` in the source: it wraps around. -/
def size_t_sub (a b : Nat) : Nat := to_size_t (a + SIZE_T_RANGE - b)

/-- A `std::ostream`, given by the characters written to it so far. -/
abbrev ostream := List Char

/-- The character `' '`. -/
def space : Char := Char.ofNat 32

/-- The character of the string `"\""`. -/
def double_quote : Char := Char.ofNat 34

/-- The loop `for (size_t i = first; i < bound; ++i) body`, given by the number of
iterations it has left (`bound - first`) and the value of `i`; an iteration that reads
outside its sequence has no outcome, and ends the loop without one. -/
def for_loop {σ : Type} (body : Nat → σ → Option σ) : Nat → Nat → σ → Option σ
  | 0, _, s => some s
  | k + 1, i, s => (body i s).bind (for_loop body k (i + 1))

/-- `iostreamop_impl::write_sequence(s, sequence, n)`. The `operator<<` of the elements is
given by the characters it writes, `render`; `sequence[i]` has a value for `i` below the
length of the sequence only. -/
def iostreamop_impl.write_sequence {α : Type} (render : α → List Char) (s : ostream)
    (sequence : List α) (n : Nat) : Option ostream :=
  if n > 0 then
    (for_loop (fun i s => (sequence[i]?).map (fun x => (s ++ render x) ++ [space]))
        (size_t_sub n 1) 0 s).bind
      (fun s => (sequence[size_t_sub n 1]?).map (fun x => s ++ render x))
  else
    some s

/-- `iostreamop_impl::write_sequence_quotes(s, sequence, n)`, with the conventions of
`write_sequence`. -/
def iostreamop_impl.write_sequence_quotes {α : Type} (render : α → List Char) (s : ostream)
    (sequence : List α) (n : Nat) : Option ostream :=
  if n > 0 then
    (for_loop
        (fun i s => (sequence[i]?).map
          (fun x => ((s ++ [double_quote]) ++ render x) ++ [double_quote, space]))
        (size_t_sub n 1) 0 s).bind
      (fun s => (sequence[size_t_sub n 1]?).map
        (fun x => ((s ++ [double_quote]) ++ render x) ++ [double_quote]))
  else
    some s

/-- `operator<<(std::ostream&, const std::vector<Type, Allocator>&)`. -/
def operator_out_vector {α : Type} (render : α → List Char) (s : ostream) (vector : List α) :
    Option ostream :=
  iostreamop_impl.write_sequence render s vector vector.length

/-- `operator<<(std::ostream&, const std::vector<std::string, Allocator>&)`. -/
def operator_out_string_vector {α : Type} (render : α → List Char) (s : ostream)
    (vector : List α) : Option ostream :=
  iostreamop_impl.write_sequence_quotes render s vector vector.length

/-- Texts one after the other, a single space between two neighbours and none before the
first or after the last. -/
def separated_by_spaces : List (List Char) → List Char
  | [] => []
  | [x] => x
  | x :: y :: rest => (x ++ [space]) ++ separated_by_spaces (y :: rest)

/-- Texts one after the other, each followed by a single space. -/
def each_followed_by_space : List (List Char) → List Char
  | [] => []
  | x :: rest => (x ++ [space]) ++ each_followed_by_space rest

/-- The rendering of an element between a pair of double quotes. -/
def quoted {α : Type} (render : α → List Char) (x : α) : List Char :=
  ([double_quote] ++ render x) ++ [double_quote]

/-! ## Arithmetic of `size_t` -/

theorem size_t_mul_of_lt {a b : Nat} (h : a * b < SIZE_T_RANGE) : size_t_mul a b = a * b :=
  Nat.mod_eq_of_lt h

theorem to_size_t_lt (n : Nat) : to_size_t n < SIZE_T_RANGE :=
  Nat.mod_lt _ (by unfold SIZE_T_RANGE; positivity)

theorem size_t_mul_lt (a b : Nat) : size_t_mul a b < SIZE_T_RANGE :=
  to_size_t_lt _

/-- The constructor of a new tile returns a tile as soon as its three assertions hold. -/
theorem Tile_new_eq (P : Pixel) (width height channel_count : Nat) (pixel_format : PixelFormat)
    (storage : Nat) (m : Memory) (hw : 0 < width) (hh : 0 < height) (hc : 0 < channel_count) :
    Tile.Tile_new P width height channel_count pixel_format storage m =
      Except.ok
        ({ m_width := width, m_height := height, m_channel_count := channel_count,
           m_pixel_format := pixel_format, m_pixel_count := size_t_mul width height,
           m_channel_size := P.size pixel_format,
           m_pixel_size := size_t_mul (P.size pixel_format) channel_count,
           m_array_size := size_t_mul
             (size_t_mul (P.size pixel_format) channel_count)
             (size_t_mul width height),
           m_pixel_array := (allocate_pixel_array storage (size_t_mul
             (size_t_mul (P.size pixel_format) channel_count)
             (size_t_mul width height)) m).1,
           m_own_storage := (allocate_pixel_array storage (size_t_mul
             (size_t_mul (P.size pixel_format) channel_count)
             (size_t_mul width height)) m).2.1 },
         (allocate_pixel_array storage (size_t_mul
             (size_t_mul (P.size pixel_format) channel_count)
             (size_t_mul width height)) m).2.2) := by
  unfold Tile.Tile_new
  simp [hw, hh, hc]

/-- The two fixtures are what the constructor of a new tile builds in `empty_memory`. -/
theorem fixtures_built :
    (∃ m1, Tile.Tile_new stub_Pixel 4 2 3 0 0 empty_memory = Except.ok (example_tile, m1) ∧
      m1.brk = example_memory.brk ∧ m1.trace = example_memory.trace) ∧
    (∃ m1, Tile.Tile_new stub_Pixel 4 2 4 0 0 empty_memory = Except.ok (rgba_tile, m1) ∧
      m1.brk = rgba_memory.brk ∧ m1.trace = rgba_memory.trace) :=
  ⟨⟨_, Tile_new_eq stub_Pixel 4 2 3 0 0 empty_memory (by decide) (by decide) (by decide),
    rfl, rfl⟩,
   ⟨_, Tile_new_eq stub_Pixel 4 2 4 0 0 empty_memory (by decide) (by decide) (by decide),
    rfl, rfl⟩⟩

/-- The array size as the source computes it, `(size * channels mod 2^64) * count mod 2^64`,
is the product of the three reduced once. -/
theorem array_size_mod (s c n : Nat) :
    size_t_mul (size_t_mul s c) n = (n * c * s) % SIZE_T_RANGE := by
  unfold size_t_mul to_size_t
  rw [Nat.mod_mul_mod]
  congr 1
  ring

/-! ## The constructor of a new tile -/

/-- C1, as stated, fails: a new tile of width `2 ^ 32` and height `2 ^ 32` with one 8-bit
channel is built, with `pixel_count = 0` and `array_size = 0`, although
`width * height = 2 ^ 64` and `width * height * channel_count * size_of = 2 ^ 64`. -/
theorem C1_counterexample_overflow :
    (0 < 4294967296 ∧ 0 < 1 ∧ stub_Pixel.size 0 = 1) ∧
    ∃ t m, Tile.Tile_new stub_Pixel 4294967296 4294967296 1 0 0 empty_memory = Except.ok (t, m) ∧
      t.m_pixel_count = 0 ∧ t.m_pixel_count ≠ 4294967296 * 4294967296 ∧
      t.m_array_size = 0 ∧ t.m_array_size ≠ 4294967296 * 4294967296 * 1 * stub_Pixel.size 0 := by
  refine ⟨by decide, _, _,
    Tile_new_eq stub_Pixel 4294967296 4294967296 1 0 0 empty_memory (by decide) (by decide)
      (by decide), ?_, ?_, ?_, ?_⟩ <;> decide

/-- C1, amended: for positive `width`, `height` and `channel_count` the constructor of a new
tile returns a tile whose sizes are the products of the claim reduced modulo `2 ^ 64`, and
they are the products themselves as soon as `width * height` and
`width * height * channel_count * size_of(pixel_format)` are below `2 ^ 64`. -/
theorem C1_fresh_sizes (P : Pixel) (width height channel_count : Nat)
    (pixel_format : PixelFormat) (storage : Nat) (m : Memory)
    (hw : 0 < width) (hh : 0 < height) (hc : 0 < channel_count) :
    ∃ t m1, Tile.Tile_new P width height channel_count pixel_format storage m
        = Except.ok (t, m1) ∧
      t.m_width = width ∧ t.m_height = height ∧ t.m_channel_count = channel_count ∧
      t.m_pixel_format = pixel_format ∧
      t.m_pixel_count = (width * height) % 2 ^ 64 ∧
      t.m_channel_size = P.size pixel_format ∧
      t.m_pixel_size = (t.m_channel_size * channel_count) % 2 ^ 64 ∧
      t.m_array_size = (width * height * channel_count * P.size pixel_format) % 2 ^ 64 ∧
      (width * height < 2 ^ 64 →
        width * height * channel_count * P.size pixel_format < 2 ^ 64 →
          t.m_pixel_count = width * height ∧
          t.m_channel_size = P.size pixel_format ∧
          t.m_pixel_size = t.m_channel_size * channel_count ∧
          t.m_array_size = width * height * channel_count * P.size pixel_format) := by
  refine ⟨_, _, Tile_new_eq P width height channel_count pixel_format storage m hw hh hc,
    rfl, rfl, rfl, rfl, rfl, rfl, rfl, ?_, ?_⟩
  · show size_t_mul (size_t_mul (P.size pixel_format) channel_count)
        (size_t_mul width height) = _
    rw [array_size_mod]
    unfold size_t_mul to_size_t SIZE_T_RANGE
    rw [Nat.mul_assoc, Nat.mod_mul_mod, ← Nat.mul_assoc]
  · intro h1 h2
    have hM : SIZE_T_RANGE = 2 ^ 64 := rfl
    have hwh : 0 < width * height := Nat.mul_pos hw hh
    -- the size of a pixel fits as well
    have hps : P.size pixel_format * channel_count < 2 ^ 64 := by
      have : P.size pixel_format * channel_count
          ≤ width * height * channel_count * P.size pixel_format := by
        calc P.size pixel_format * channel_count
            = 1 * (channel_count * P.size pixel_format) := by ring
          _ ≤ (width * height) * (channel_count * P.size pixel_format) :=
              Nat.mul_le_mul_right _ hwh
          _ = width * height * channel_count * P.size pixel_format := by ring
      exact lt_of_le_of_lt this h2
    have e1 : size_t_mul width height = width * height :=
      size_t_mul_of_lt (by rw [hM]; exact h1)
    have e3 : size_t_mul (P.size pixel_format) channel_count
        = P.size pixel_format * channel_count :=
      size_t_mul_of_lt (by rw [hM]; exact hps)
    have e4 : size_t_mul (P.size pixel_format * channel_count) (width * height)
        = P.size pixel_format * channel_count * (width * height) :=
      size_t_mul_of_lt (by
        rw [hM]
        calc P.size pixel_format * channel_count * (width * height)
            = width * height * channel_count * P.size pixel_format := by ring
          _ < 2 ^ 64 := h2)
    refine ⟨e1, rfl, e3, ?_⟩
    · show size_t_mul (size_t_mul (P.size pixel_format) channel_count)
          (size_t_mul width height) = _
      rw [e1, e3, e4]
      ring

/-- The example of C1: width 4, height 2, 3 channels of the 8-bit format give
`pixel_count = 8`, `channel_size = 1`, `pixel_size = 3` and `array_size = 24`. -/
theorem C1_fresh_sizes_witness :
    (0 < 4 ∧ 0 < 2 ∧ 0 < 3 ∧ stub_Pixel.size 0 = 1) ∧
    ∃ t m1, Tile.Tile_new stub_Pixel 4 2 3 0 0 empty_memory = Except.ok (t, m1) ∧
      t.m_pixel_count = 8 ∧ t.m_channel_size = 1 ∧ t.m_pixel_size = 3 ∧
      t.m_array_size = 24 := by
  obtain ⟨t, m1, h, -, -, -, -, -, -, -, -, hx⟩ :=
    C1_fresh_sizes stub_Pixel 4 2 3 0 0 empty_memory (by decide) (by decide) (by decide)
  obtain ⟨h1, h2, h3, h4⟩ := hx (by decide) (by decide)
  have hs : stub_Pixel.size 0 = 1 := by decide
  refine ⟨by decide, t, m1, h, ?_, ?_, ?_, ?_⟩
  · rw [h1]
  · rw [h2, hs]
  · rw [h3, h2, hs]
  · rw [h4, hs]

/-! ## Ownership of the pixel array -/

theorem allocations_append (a b : List Event) :
    allocations (a ++ b) = allocations a ++ allocations b := by
  simp [allocations, List.filterMap_append]

theorem releases_append (a b : List Event) :
    releases (a ++ b) = releases a ++ releases b := by
  simp [releases, List.filterMap_append]

theorem conversions_append (a b : List Event) :
    conversions (a ++ b) = conversions a ++ conversions b := by
  simp [conversions, List.filter_append]

/-- The destructor: one `delete[]` of the pixel array when the tile owns it, nothing otherwise. -/
theorem destroy_trace (t : Tile) (m : Memory) :
    (t.destroy m).trace =
      if t.m_own_storage then m.trace ++ [Event.delete_array t.m_pixel_array] else m.trace := by
  unfold Tile.destroy delete_uint8_array
  split_ifs <;> rfl

/-- The shared allocation block meets the storage contract, whatever is appended to the trace
afterwards is a conversion call. -/
theorem allocate_pixel_array_contract (storage n : Nat) (m : Memory) (t : Tile) (m1 : Memory)
    (extra : List Event)
    (hp : t.m_pixel_array = (allocate_pixel_array storage n m).1)
    (ho : t.m_own_storage = (allocate_pixel_array storage n m).2.1)
    (hn : t.m_array_size = n)
    (ht : m1.trace = (allocate_pixel_array storage n m).2.2.trace ++ extra)
    (ha : allocations extra = []) (hr : releases extra = []) :
    storage_contract storage m t m1 := by
  unfold storage_contract
  constructor
  · intro hs
    have e : allocate_pixel_array storage n m = (storage, false, m) := by
      unfold allocate_pixel_array; rw [if_pos hs]
    rw [e] at hp ho ht
    simp only at hp ho ht
    refine ⟨hp, ho, ?_, ?_, ?_⟩
    · rw [ht, allocations_append, ha, List.append_nil]
    · rw [ht, releases_append, hr, List.append_nil]
    · rw [destroy_trace, ho]; rfl
  · intro hs
    have e : allocate_pixel_array storage n m =
        (m.brk, true, (new_uint8_array n m).2) := by
      unfold allocate_pixel_array; rw [if_neg (by simpa using hs)]; rfl
    rw [e] at hp ho ht
    simp only at hp ho ht
    have hnew : (new_uint8_array n m).2.trace = m.trace ++ [Event.new_array m.brk n] := rfl
    refine ⟨hp, ho, ?_, ?_, ?_⟩
    · rw [ht, hnew, allocations_append, allocations_append, ha, List.append_nil, hp, hn]
      rfl
    · rw [ht, hnew, releases_append, releases_append, hr, List.append_nil]
      simp [releases]
    · rw [destroy_trace, ho, if_pos rfl, releases_append]
      rfl

/-- C2: each of the three constructors that take optional storage meets the storage
contract (with storage: the pixel array is that storage, nothing is allocated, the tile does
not own it, its destructor releases nothing; without: one block of exactly `m_array_size`
bytes is allocated, the tile owns it and its destructor releases it), and the destructor of
any tile releases the pixel array if and only if the tile owns it. -/
theorem C2_storage_ownership (P : Pixel) (width height channel_count : Nat)
    (pixel_format : PixelFormat) (tile : Tile) (shuffle_table : List Nat) (storage : Nat)
    (m : Memory) (hw : 0 < width) (hh : 0 < height) (hc : 0 < channel_count) :
    (∃ t m1, Tile.Tile_new P width height channel_count pixel_format storage m
        = Except.ok (t, m1) ∧ storage_contract storage m t m1) ∧
    storage_contract storage m (Tile.Tile_convert P tile pixel_format storage m).1
      (Tile.Tile_convert P tile pixel_format storage m).2 ∧
    storage_contract storage m
      (Tile.Tile_shuffle P tile pixel_format shuffle_table storage m).1
      (Tile.Tile_shuffle P tile pixel_format shuffle_table storage m).2 ∧
    (∀ (t : Tile) (m0 : Memory),
      ((t.destroy m0).trace = m0.trace ++ [Event.delete_array t.m_pixel_array]
        ↔ t.m_own_storage = true) ∧
      (t.destroy m0 = m0 ↔ t.m_own_storage = false)) := by
  refine ⟨⟨_, _, Tile_new_eq P width height channel_count pixel_format storage m hw hh hc,
    ?_⟩, ?_, ?_, ?_⟩
  · exact allocate_pixel_array_contract storage _ m _ _ [] rfl rfl rfl
      (List.append_nil _).symm rfl rfl
  · exact allocate_pixel_array_contract storage _ m _ _ _ rfl rfl rfl rfl rfl rfl
  · exact allocate_pixel_array_contract storage _ m _ _ _ rfl rfl rfl rfl rfl rfl
  · intro t m0
    constructor
    · rw [destroy_trace]
      cases t.m_own_storage <;> simp
    · unfold Tile.destroy delete_uint8_array
      cases h : t.m_own_storage
      · simp
      · simp only [if_true]
        constructor
        · intro hEq
          have := congrArg (fun x => x.trace.length) hEq
          simp at this
        · intro hEq
          cases hEq

/-- C2 at work: a new 4 x 2 tile of 3 8-bit channels built without storage allocates one
block of 24 bytes, owns it, and its destructor releases that block. -/
theorem C2_storage_ownership_witness :
    (0 < 4 ∧ 0 < 2 ∧ 0 < 3) ∧
    ∃ t m1, Tile.Tile_new stub_Pixel 4 2 3 0 0 empty_memory = Except.ok (t, m1) ∧
      t.m_own_storage = true ∧ allocations m1.trace = [(1, 24)] ∧
      releases (t.destroy m1).trace = [1] := by
  obtain ⟨⟨t, m1, h, -, hc⟩, -⟩ :=
    C2_storage_ownership stub_Pixel 4 2 3 0 example_tile [0, 1, 2] 0 empty_memory
      (by decide) (by decide) (by decide)
  obtain ⟨hp, ho, ha, hr, hd⟩ := hc rfl
  have hsize : t.m_array_size = 24 := by
    have e := Tile_new_eq stub_Pixel 4 2 3 0 0 empty_memory (by decide) (by decide) (by decide)
    rw [h] at e
    injection e with e
    rw [congrArg (fun x => x.1.m_array_size) e]
    decide
  refine ⟨by decide, t, m1, h, ho, ?_, ?_⟩
  · rw [ha, hp, hsize]; rfl
  · rw [hd, hr, hp]; rfl

/-! ## The copy constructor -/

/-- Two ranges of memory hold the same bytes when they agree offset by offset. -/
theorem read_bytes_congr (b1 b2 : Bytes) (p q n : Nat)
    (h : ∀ i, i < n → b1 (p + i) = b2 (q + i)) : read_bytes b1 p n = read_bytes b2 q n := by
  unfold read_bytes
  apply List.map_congr_left
  intro i hi
  exact h i (List.mem_range.mp hi)

/-- After `memcpy(dest, src, n)` the destination holds what the source held. -/
theorem read_bytes_memcpy (b : Bytes) (dest src n : Nat) :
    read_bytes (memcpy dest src n b) dest n = read_bytes b src n := by
  apply read_bytes_congr
  intro i hi
  unfold memcpy
  rw [if_pos ⟨Nat.le_add_right _ _, by omega⟩, Nat.add_sub_cancel_left]

/-- `memcpy(dest, src, n)` leaves every byte outside the destination as it was. -/
theorem memcpy_outside (b : Bytes) (dest src n a : Nat) (h : a < dest ∨ dest + n ≤ a) :
    memcpy dest src n b a = b a := by
  unfold memcpy
  rw [if_neg (by omega)]

/-- C3: the copy of a tile whose pixel array lies in memory in use has the scalar members
of its source, owns a block of `m_array_size` bytes allocated by the constructor, which
holds the bytes of the source and shares no address with the pixel array of the source;
the source's bytes are those before the copy, and a store into the copy's pixel array
leaves them as they are. -/
theorem C3_copy_constructor (rhs : Tile) (m : Memory)
    (hbuf : rhs.m_pixel_array < m.brk ∧ rhs.m_pixel_array + rhs.m_array_size ≤ m.brk) :
    ((Tile.Tile_copy rhs m).1.m_width = rhs.m_width ∧
      (Tile.Tile_copy rhs m).1.m_height = rhs.m_height ∧
      (Tile.Tile_copy rhs m).1.m_channel_count = rhs.m_channel_count ∧
      (Tile.Tile_copy rhs m).1.m_pixel_format = rhs.m_pixel_format ∧
      (Tile.Tile_copy rhs m).1.m_pixel_count = rhs.m_pixel_count ∧
      (Tile.Tile_copy rhs m).1.m_channel_size = rhs.m_channel_size ∧
      (Tile.Tile_copy rhs m).1.m_pixel_size = rhs.m_pixel_size ∧
      (Tile.Tile_copy rhs m).1.m_array_size = rhs.m_array_size) ∧
    ((Tile.Tile_copy rhs m).1.m_own_storage = true ∧
      (Tile.Tile_copy rhs m).1.m_pixel_array = m.brk ∧
      allocations (Tile.Tile_copy rhs m).2.trace = allocations m.trace ++
        [((Tile.Tile_copy rhs m).1.m_pixel_array, (Tile.Tile_copy rhs m).1.m_array_size)]) ∧
    read_bytes (Tile.Tile_copy rhs m).2.bytes (Tile.Tile_copy rhs m).1.m_pixel_array
        (Tile.Tile_copy rhs m).1.m_array_size
      = read_bytes m.bytes rhs.m_pixel_array rhs.m_array_size ∧
    read_bytes (Tile.Tile_copy rhs m).2.bytes rhs.m_pixel_array rhs.m_array_size
      = read_bytes m.bytes rhs.m_pixel_array rhs.m_array_size ∧
    ((Tile.Tile_copy rhs m).1.m_pixel_array ≠ rhs.m_pixel_array ∧
      ∀ i j, i < (Tile.Tile_copy rhs m).1.m_array_size → j < rhs.m_array_size →
        (Tile.Tile_copy rhs m).1.m_pixel_array + i ≠ rhs.m_pixel_array + j) ∧
    (∀ i v, i < (Tile.Tile_copy rhs m).1.m_array_size →
      read_bytes (write_byte ((Tile.Tile_copy rhs m).1.m_pixel_array + i) v
          (Tile.Tile_copy rhs m).2.bytes) rhs.m_pixel_array rhs.m_array_size
        = read_bytes (Tile.Tile_copy rhs m).2.bytes rhs.m_pixel_array rhs.m_array_size) := by
  obtain ⟨h1, h2⟩ := hbuf
  have hp : (Tile.Tile_copy rhs m).1.m_pixel_array = m.brk := rfl
  have hn : (Tile.Tile_copy rhs m).1.m_array_size = rhs.m_array_size := rfl
  have hb : (Tile.Tile_copy rhs m).2.bytes
      = memcpy m.brk rhs.m_pixel_array rhs.m_array_size m.bytes := rfl
  have ht : (Tile.Tile_copy rhs m).2.trace
      = m.trace ++ [Event.new_array m.brk rhs.m_array_size] := rfl
  refine ⟨⟨rfl, rfl, rfl, rfl, rfl, rfl, rfl, rfl⟩, ⟨rfl, rfl, ?_⟩, ?_, ?_, ⟨?_, ?_⟩, ?_⟩
  · rw [ht, allocations_append, hp, hn]; rfl
  · rw [hb, hp, hn]; exact read_bytes_memcpy _ _ _ _
  · rw [hb]
    apply read_bytes_congr
    intro i hi
    exact memcpy_outside _ _ _ _ _ (by omega)
  · rw [hp]; omega
  · intro i j _ hj
    rw [hp]; omega
  · intro i v _
    apply read_bytes_congr
    intro j hj
    unfold write_byte
    rw [if_neg (by rw [hp]; omega)]

/-- C3 at work: the copy of `example_tile` owns the 24 bytes at address 25, they are the
bytes of the source, and the source keeps its bytes when the copy's first byte is
overwritten. -/
theorem C3_copy_constructor_witness :
    (example_tile.m_pixel_array < example_memory.brk ∧
      example_tile.m_pixel_array + example_tile.m_array_size ≤ example_memory.brk) ∧
    (Tile.Tile_copy example_tile example_memory).1.m_array_size = 24 ∧
    (Tile.Tile_copy example_tile example_memory).1.m_pixel_array = 25 ∧
    (Tile.Tile_copy example_tile example_memory).1.m_own_storage = true ∧
    read_bytes (Tile.Tile_copy example_tile example_memory).2.bytes 25 24
      = read_bytes example_memory.bytes 1 24 ∧
    read_bytes (write_byte 25 255 (Tile.Tile_copy example_tile example_memory).2.bytes) 1 24
      = read_bytes (Tile.Tile_copy example_tile example_memory).2.bytes 1 24 := by
  have h := C3_copy_constructor example_tile example_memory ⟨by decide, by decide⟩
  obtain ⟨⟨-, -, -, -, -, -, -, hn⟩, ⟨ho, hp, -⟩, hcopy, -, -, hw⟩ := h
  exact ⟨⟨by decide, by decide⟩, hn, hp, ho, hcopy, hw 0 255 (by decide)⟩

/-! ## The converting constructors -/

/-- The allocation block leaves the contents of the memory as they are. -/
theorem allocate_pixel_array_bytes (storage n : Nat) (m : Memory) :
    (allocate_pixel_array storage n m).2.2.bytes = m.bytes := by
  unfold allocate_pixel_array
  split_ifs <;> rfl

/-- The allocation block calls no conversion. -/
theorem allocate_pixel_array_conversions (storage n : Nat) (m : Memory) :
    conversions (allocate_pixel_array storage n m).2.2.trace = conversions m.trace := by
  unfold allocate_pixel_array
  split_ifs
  · rfl
  · show conversions (m.trace ++ [Event.new_array m.brk n]) = _
    rw [conversions_append]
    simp [conversions]

/-- C4: the format-converting constructor keeps the width, height, channel count and pixel
count of its source, takes the format asked for, and calls the conversion collaborator
exactly once: `Pixel::convert` with the source format, the source range
`[m_pixel_array, m_pixel_array + m_array_size)`, stride 1, the destination format, the
pixel array of the new tile and stride 1; the memory afterwards is what that one call
makes of the memory before. -/
theorem C4_convert_constructor (P : Pixel) (tile : Tile) (pixel_format : PixelFormat)
    (storage : Nat) (m : Memory) :
    (Tile.Tile_convert P tile pixel_format storage m).1.m_width = tile.m_width ∧
    (Tile.Tile_convert P tile pixel_format storage m).1.m_height = tile.m_height ∧
    (Tile.Tile_convert P tile pixel_format storage m).1.m_channel_count
      = tile.m_channel_count ∧
    (Tile.Tile_convert P tile pixel_format storage m).1.m_pixel_count = tile.m_pixel_count ∧
    (Tile.Tile_convert P tile pixel_format storage m).1.m_pixel_format = pixel_format ∧
    conversions (Tile.Tile_convert P tile pixel_format storage m).2.trace
      = conversions m.trace ++
        [Event.convert tile.m_pixel_format tile.m_pixel_array
          (tile.m_pixel_array + tile.m_array_size) 1 pixel_format
          (Tile.Tile_convert P tile pixel_format storage m).1.m_pixel_array 1] ∧
    (conversions (Tile.Tile_convert P tile pixel_format storage m).2.trace).length
      = (conversions m.trace).length + 1 ∧
    (Tile.Tile_convert P tile pixel_format storage m).2.bytes
      = P.convert tile.m_pixel_format tile.m_pixel_array
          (tile.m_pixel_array + tile.m_array_size) 1 pixel_format
          (Tile.Tile_convert P tile pixel_format storage m).1.m_pixel_array 1 m.bytes := by
  have ht : conversions (Tile.Tile_convert P tile pixel_format storage m).2.trace
      = conversions m.trace ++
        [Event.convert tile.m_pixel_format tile.m_pixel_array
          (tile.m_pixel_array + tile.m_array_size) 1 pixel_format
          (Tile.Tile_convert P tile pixel_format storage m).1.m_pixel_array 1] := by
    show conversions (_ ++ [_]) = _
    rw [conversions_append, allocate_pixel_array_conversions]
    rfl
  refine ⟨rfl, rfl, rfl, rfl, rfl, ht, ?_, ?_⟩
  · rw [ht, List.length_append]; rfl
  · show P.convert _ _ _ _ _ _ _ _ = _
    rw [allocate_pixel_array_bytes]
    rfl

/-- C5, as stated, fails: the new tile of width `2 ^ 31`, height `2 ^ 31` and one channel
of the 32-bit format has `2 ^ 62` pixels and an `array_size` that wraps to `0`, so that its
constructor allocates `new uint8[0]`; shuffled in its own format with a table that keeps
its channel, it gives a tile with `array_size = 0`, although
`pixel_count * channel_count * size_of = 2 ^ 62 * 1 * 4 = 2 ^ 64`. -/
theorem C5_counterexample_overflow :
    ∃ t0 m0, Tile.Tile_new stub_Pixel 2147483648 2147483648 1 2 0 empty_memory
        = Except.ok (t0, m0) ∧
      allocations m0.trace = [(1, 0)] ∧
      (Tile.Tile_shuffle stub_Pixel t0 2 [0] 0 m0).1.m_pixel_count = 4611686018427387904 ∧
      (Tile.Tile_shuffle stub_Pixel t0 2 [0] 0 m0).1.m_channel_count
        = stub_Pixel.get_dest_channel_count t0.m_channel_count [0] ∧
      (Tile.Tile_shuffle stub_Pixel t0 2 [0] 0 m0).1.m_channel_count = 1 ∧
      stub_Pixel.size 2 = 4 ∧
      (Tile.Tile_shuffle stub_Pixel t0 2 [0] 0 m0).1.m_array_size = 0 ∧
      allocations (Tile.Tile_shuffle stub_Pixel t0 2 [0] 0 m0).2.trace = [(1, 0), (2, 0)] ∧
      (Tile.Tile_shuffle stub_Pixel t0 2 [0] 0 m0).1.m_array_size
        ≠ (Tile.Tile_shuffle stub_Pixel t0 2 [0] 0 m0).1.m_pixel_count
          * (Tile.Tile_shuffle stub_Pixel t0 2 [0] 0 m0).1.m_channel_count
          * stub_Pixel.size 2 := by
  refine ⟨_, _,
    Tile_new_eq stub_Pixel 2147483648 2147483648 1 2 0 empty_memory (by decide) (by decide)
      (by decide), ?_, ?_, ?_, ?_, ?_, ?_, ?_, ?_⟩ <;> decide

/-- C5, amended: the format+shuffle-converting constructor keeps the width, height and
pixel count of its source, takes as channel count what `Pixel::get_dest_channel_count`
returns for the source's channel count and the table, and recomputes the sizes from the
destination format and that count: `array_size` is
`pixel_count * channel_count * size_of(format)` modulo `2 ^ 64`, hence that product when
it is below `2 ^ 64`. When the source's `array_size` is the product
`pixel_count * channel_count * size_of(format)` of its own members, the format is kept and
the collaborator reports half the source's channels, the new `array_size` is half the
source's. -/
theorem C5_shuffle_constructor (P : Pixel) (tile : Tile) (pixel_format : PixelFormat)
    (shuffle_table : List Nat) (storage : Nat) (m : Memory) :
    (Tile.Tile_shuffle P tile pixel_format shuffle_table storage m).1.m_width
      = tile.m_width ∧
    (Tile.Tile_shuffle P tile pixel_format shuffle_table storage m).1.m_height
      = tile.m_height ∧
    (Tile.Tile_shuffle P tile pixel_format shuffle_table storage m).1.m_pixel_count
      = tile.m_pixel_count ∧
    (Tile.Tile_shuffle P tile pixel_format shuffle_table storage m).1.m_pixel_format
      = pixel_format ∧
    (Tile.Tile_shuffle P tile pixel_format shuffle_table storage m).1.m_channel_count
      = P.get_dest_channel_count tile.m_channel_count shuffle_table ∧
    (Tile.Tile_shuffle P tile pixel_format shuffle_table storage m).1.m_channel_size
      = P.size pixel_format ∧
    (Tile.Tile_shuffle P tile pixel_format shuffle_table storage m).1.m_pixel_size
      = (P.size pixel_format
          * (Tile.Tile_shuffle P tile pixel_format shuffle_table storage m).1.m_channel_count)
        % 2 ^ 64 ∧
    (Tile.Tile_shuffle P tile pixel_format shuffle_table storage m).1.m_array_size
      = ((Tile.Tile_shuffle P tile pixel_format shuffle_table storage m).1.m_pixel_count
          * (Tile.Tile_shuffle P tile pixel_format shuffle_table storage m).1.m_channel_count
          * P.size pixel_format) % 2 ^ 64 ∧
    ((Tile.Tile_shuffle P tile pixel_format shuffle_table storage m).1.m_pixel_count
          * (Tile.Tile_shuffle P tile pixel_format shuffle_table storage m).1.m_channel_count
          * P.size pixel_format < 2 ^ 64 →
      (Tile.Tile_shuffle P tile pixel_format shuffle_table storage m).1.m_array_size
        = (Tile.Tile_shuffle P tile pixel_format shuffle_table storage m).1.m_pixel_count
          * (Tile.Tile_shuffle P tile pixel_format shuffle_table storage m).1.m_channel_count
          * P.size pixel_format) ∧
    (pixel_format = tile.m_pixel_format →
      2 * P.get_dest_channel_count tile.m_channel_count shuffle_table
        = tile.m_channel_count →
      tile.m_array_size
        = tile.m_pixel_count * tile.m_channel_count * P.size tile.m_pixel_format →
      tile.m_array_size < 2 ^ 64 →
      2 * (Tile.Tile_shuffle P tile pixel_format shuffle_table storage m).1.m_array_size
        = tile.m_array_size) := by
  have ha : (Tile.Tile_shuffle P tile pixel_format shuffle_table storage m).1.m_array_size
      = (tile.m_pixel_count * P.get_dest_channel_count tile.m_channel_count shuffle_table
          * P.size pixel_format) % 2 ^ 64 := by
    show size_t_mul (size_t_mul _ _) _ = _
    rw [array_size_mod]
    rfl
  refine ⟨rfl, rfl, rfl, rfl, rfl, rfl, rfl, ha, ?_, ?_⟩
  · intro hfit
    rw [ha]
    exact Nat.mod_eq_of_lt hfit
  · intro hf hhalf hsrc hlt
    rw [ha, hf]
    generalize P.get_dest_channel_count tile.m_channel_count shuffle_table = d at hhalf ⊢
    rw [← hhalf] at hsrc
    have hle : tile.m_pixel_count * d * P.size tile.m_pixel_format ≤ tile.m_array_size := by
      rw [hsrc]
      apply Nat.mul_le_mul_right
      apply Nat.mul_le_mul_left
      omega
    rw [Nat.mod_eq_of_lt (lt_of_le_of_lt hle hlt), hsrc]
    ring

/-- C5 at work: `rgba_tile` (4 x 2, 4 channels of 8 bits, 32 bytes) shuffled in its own
format with a table that omits two of the four channels has 2 channels and 16 bytes. -/
theorem C5_shuffle_constructor_witness :
    (rgba_tile.m_array_size
        = rgba_tile.m_pixel_count * rgba_tile.m_channel_count * stub_Pixel.size 0 ∧
      2 * stub_Pixel.get_dest_channel_count 4
        [0, 18446744073709551615, 1, 18446744073709551615] = 4) ∧
    (Tile.Tile_shuffle stub_Pixel rgba_tile 0
      [0, 18446744073709551615, 1, 18446744073709551615] 0 rgba_memory).1.m_channel_count
      = 2 ∧
    (Tile.Tile_shuffle stub_Pixel rgba_tile 0
      [0, 18446744073709551615, 1, 18446744073709551615] 0 rgba_memory).1.m_array_size
      = 8 * 2 * 1 ∧
    2 * (Tile.Tile_shuffle stub_Pixel rgba_tile 0
      [0, 18446744073709551615, 1, 18446744073709551615] 0 rgba_memory).1.m_array_size
      = 32 := by
  obtain ⟨-, -, -, -, hc, -, -, -, hfit, hhalf⟩ :=
    C5_shuffle_constructor stub_Pixel rgba_tile 0
      [0, 18446744073709551615, 1, 18446744073709551615] 0 rgba_memory
  exact ⟨⟨by decide, by decide⟩, by rw [hc]; decide, hfit (by decide),
    hhalf rfl (by decide) (by decide) (by decide)⟩

/-! ## The size invariant -/

/-- The array size computed from a pixel count that is `width * height` modulo `2 ^ 64`. -/
theorem array_size_of_count (s c w h : Nat) :
    size_t_mul (size_t_mul s c) ((w * h) % 2 ^ 64) = (w * h * c * s) % 2 ^ 64 := by
  rw [array_size_mod]
  unfold SIZE_T_RANGE
  rw [Nat.mul_assoc, Nat.mod_mul_mod, ← Nat.mul_assoc]

/-- A tile that meets the storage contract owns no other block than the one allocated for it. -/
theorem owned_block_of_contract (storage : Nat) (m : Memory) (t : Tile) (m1 : Memory)
    (h : storage_contract storage m t m1) : owned_block_matches m.trace t m1 := by
  intro ho
  rcases Nat.eq_zero_or_pos storage with h0 | hpos
  · exact (h.2 h0).2.2.1
  · have := (h.1 (Nat.pos_iff_ne_zero.mp hpos)).2.1
    rw [ho] at this
    cases this

/-- The invariant over the natural numbers implies the one in the arithmetic of `size_t`
for a tile whose members are `size_t` values. -/
theorem size_invariant_of_exact (P : Pixel) (t : Tile) (h : size_invariant_exact P t)
    (hpc : t.m_pixel_count < 2 ^ 64) (hps : t.m_pixel_size < 2 ^ 64)
    (has : t.m_array_size < 2 ^ 64) : size_invariant P t := by
  obtain ⟨h1, h2, h3, h4⟩ := h
  refine ⟨?_, h2, ?_, ?_⟩
  · rw [← h1, Nat.mod_eq_of_lt hpc]
  · rw [← h3, Nat.mod_eq_of_lt hps]
  · rw [← h4, Nat.mod_eq_of_lt has]

/-- C6, as stated, fails: the constructor of a new tile called with width `2 ^ 32`,
height `2 ^ 32` and one 8-bit channel returns a tile (its pixel array is `new uint8[0]`)
with `pixel_count = 0` and `array_size = 0`, which does not satisfy the invariant over the
natural numbers: `width * height = 2 ^ 64`. -/
theorem C6_counterexample_overflow :
    (0 < 4294967296 ∧ 0 < 1) ∧
    ∃ t m1, Tile.Tile_new stub_Pixel 4294967296 4294967296 1 0 0 empty_memory
        = Except.ok (t, m1) ∧
      allocations m1.trace = [(1, 0)] ∧
      t.m_own_storage = true ∧
      t.m_pixel_count = 0 ∧ t.m_array_size = 0 ∧
      t.m_width * t.m_height = 18446744073709551616 ∧
      ¬ size_invariant_exact stub_Pixel t := by
  refine ⟨by decide, _, _,
    Tile_new_eq stub_Pixel 4294967296 4294967296 1 0 0 empty_memory (by decide) (by decide)
      (by decide), ?_, ?_, ?_, ?_, ?_, ?_⟩
  · decide
  · decide
  · decide
  · decide
  · decide
  · unfold size_invariant_exact; decide

/-- C6, amended: the size invariant in the arithmetic of `size_t` (each product reduced
modulo `2 ^ 64`) holds for the tile the constructor of a new tile builds, and for the tile
the format-converting, the format+shuffle-converting and the copy constructor build from a
tile that satisfies it; when such a tile owns its storage, the block allocated for it has
exactly `m_array_size` bytes; and a tile that satisfies the invariant and none of whose
products overflows satisfies the four equations over the natural numbers. -/
theorem C6_size_invariant (P : Pixel) (width height channel_count : Nat)
    (pixel_format : PixelFormat) (tile : Tile) (shuffle_table : List Nat) (storage : Nat)
    (m : Memory) (hw : 0 < width) (hh : 0 < height) (hc : 0 < channel_count)
    (hT : size_invariant P tile) :
    (∃ t m1, Tile.Tile_new P width height channel_count pixel_format storage m
        = Except.ok (t, m1) ∧ size_invariant P t ∧ owned_block_matches m.trace t m1) ∧
    (size_invariant P (Tile.Tile_convert P tile pixel_format storage m).1 ∧
      owned_block_matches m.trace (Tile.Tile_convert P tile pixel_format storage m).1
        (Tile.Tile_convert P tile pixel_format storage m).2) ∧
    (size_invariant P (Tile.Tile_shuffle P tile pixel_format shuffle_table storage m).1 ∧
      owned_block_matches m.trace
        (Tile.Tile_shuffle P tile pixel_format shuffle_table storage m).1
        (Tile.Tile_shuffle P tile pixel_format shuffle_table storage m).2) ∧
    (size_invariant P (Tile.Tile_copy tile m).1 ∧
      owned_block_matches m.trace (Tile.Tile_copy tile m).1 (Tile.Tile_copy tile m).2) ∧
    (∀ t : Tile, size_invariant P t → sizes_fit t → size_invariant_exact P t) := by
  obtain ⟨hT1, hT2, hT3, hT4⟩ := hT
  refine ⟨⟨_, _, Tile_new_eq P width height channel_count pixel_format storage m hw hh hc,
    ⟨rfl, rfl, rfl, ?_⟩, ?_⟩, ⟨⟨hT1, rfl, rfl, ?_⟩, ?_⟩, ⟨⟨hT1, rfl, rfl, ?_⟩, ?_⟩,
    ⟨⟨hT1, hT2, hT3, hT4⟩, ?_⟩, ?_⟩
  · show size_t_mul (size_t_mul _ _) (size_t_mul width height) = _
    exact array_size_of_count _ _ _ _
  · exact owned_block_of_contract storage m _ _
      (allocate_pixel_array_contract storage _ m _ _ [] rfl rfl rfl
        (List.append_nil _).symm rfl rfl)
  · show size_t_mul (size_t_mul _ _) tile.m_pixel_count = _
    rw [hT1]
    exact array_size_of_count _ _ _ _
  · exact owned_block_of_contract storage m _ _
      (allocate_pixel_array_contract storage _ m _ _ _ rfl rfl rfl rfl rfl rfl)
  · show size_t_mul (size_t_mul _ _) tile.m_pixel_count = _
    rw [hT1]
    exact array_size_of_count _ _ _ _
  · exact owned_block_of_contract storage m _ _
      (allocate_pixel_array_contract storage _ m _ _ _ rfl rfl rfl rfl rfl rfl)
  · intro _
    show allocations (m.trace ++ [Event.new_array m.brk tile.m_array_size]) = _
    rw [allocations_append]
    rfl
  · intro t ⟨h1, h2, h3, h4⟩ ⟨f1, f2, f3⟩
    refine ⟨?_, h2, ?_, ?_⟩
    · rw [h1, Nat.mod_eq_of_lt f1]
    · rw [h3, Nat.mod_eq_of_lt f2]
    · rw [h4, Nat.mod_eq_of_lt f3]

/-- C6 at work: `example_tile` satisfies the invariant, so does the tile converted from
it to the 16-bit format, whose sizes (2, 6 and 48 bytes) are the products themselves. -/
theorem C6_size_invariant_witness :
    ((0 < 4 ∧ 0 < 2 ∧ 0 < 3) ∧ size_invariant stub_Pixel example_tile) ∧
    size_invariant stub_Pixel (Tile.Tile_convert stub_Pixel example_tile 1 0 example_memory).1 ∧
    size_invariant_exact stub_Pixel
      (Tile.Tile_convert stub_Pixel example_tile 1 0 example_memory).1 ∧
    (Tile.Tile_convert stub_Pixel example_tile 1 0 example_memory).1.m_array_size = 48 := by
  have hex : size_invariant stub_Pixel example_tile := by
    unfold size_invariant; decide
  obtain ⟨-, ⟨hconv, -⟩, -, -, hexact⟩ :=
    C6_size_invariant stub_Pixel 4 2 3 1 example_tile [0, 1, 2] 0 example_memory
      (by decide) (by decide) (by decide) hex
  exact ⟨⟨by decide, hex⟩, hconv, hexact _ hconv (by unfold sizes_fit; decide), by decide⟩

/-! ## Positive dimensions -/

/-- The three constructors that take their channel count from their arguments or from
their source build a tile of positive dimensions: the constructor of a new tile from
positive arguments, the format-converting and the copy constructor from a tile of positive
dimensions. The format+shuffle-converting constructor keeps the width and the height, and
its channel count is positive exactly when the collaborator returns a positive count. -/
theorem positive_dimensions (P : Pixel) (width height channel_count : Nat)
    (pixel_format : PixelFormat) (tile : Tile) (shuffle_table : List Nat) (storage : Nat)
    (m : Memory) (hw : 0 < width) (hh : 0 < height) (hc : 0 < channel_count)
    (hT : 0 < tile.m_width ∧ 0 < tile.m_height ∧ 0 < tile.m_channel_count) :
    (∃ t m1, Tile.Tile_new P width height channel_count pixel_format storage m
        = Except.ok (t, m1) ∧ 0 < t.m_width ∧ 0 < t.m_height ∧ 0 < t.m_channel_count) ∧
    (0 < (Tile.Tile_convert P tile pixel_format storage m).1.m_width ∧
      0 < (Tile.Tile_convert P tile pixel_format storage m).1.m_height ∧
      0 < (Tile.Tile_convert P tile pixel_format storage m).1.m_channel_count) ∧
    (0 < (Tile.Tile_copy tile m).1.m_width ∧ 0 < (Tile.Tile_copy tile m).1.m_height ∧
      0 < (Tile.Tile_copy tile m).1.m_channel_count) ∧
    (0 < (Tile.Tile_shuffle P tile pixel_format shuffle_table storage m).1.m_width ∧
      0 < (Tile.Tile_shuffle P tile pixel_format shuffle_table storage m).1.m_height ∧
      (0 < (Tile.Tile_shuffle P tile pixel_format shuffle_table storage m).1.m_channel_count
        ↔ 0 < P.get_dest_channel_count tile.m_channel_count shuffle_table)) :=
  ⟨⟨_, _, Tile_new_eq P width height channel_count pixel_format storage m hw hh hc,
    hw, hh, hc⟩, hT, hT, hT.1, hT.2.1, Iff.rfl⟩

/-- C7 fails on the code: the new 1 x 1 tile of one 8-bit channel has positive
dimensions, and the tile the format+shuffle-converting constructor makes of it with a
table that omits its only channel has `channel_count = 0`, the count the collaborator
returns; no assertion of that constructor checks it. -/
theorem C7_shuffle_zero_channel_count :
    ∃ t0 m0, Tile.Tile_new stub_Pixel 1 1 1 0 0 empty_memory = Except.ok (t0, m0) ∧
      (0 < t0.m_width ∧ 0 < t0.m_height ∧ 0 < t0.m_channel_count) ∧
      stub_Pixel.get_dest_channel_count t0.m_channel_count [18446744073709551615] = 0 ∧
      (Tile.Tile_shuffle stub_Pixel t0 0 [18446744073709551615] 0 m0).1.m_width = 1 ∧
      (Tile.Tile_shuffle stub_Pixel t0 0 [18446744073709551615] 0 m0).1.m_height = 1 ∧
      (Tile.Tile_shuffle stub_Pixel t0 0 [18446744073709551615] 0 m0).1.m_channel_count
        = 0 := by
  refine ⟨_, _,
    Tile_new_eq stub_Pixel 1 1 1 0 0 empty_memory (by decide) (by decide) (by decide),
    ?_, ?_, ?_, ?_, ?_⟩ <;> decide

/-! ## Conversion to the same format -/

/-- The array size a converting constructor recomputes for the format and channel count
of a tile that satisfies the size invariant is the array size of that tile. -/
theorem array_size_of_invariant (P : Pixel) (t : Tile) (h : size_invariant P t) :
    size_t_mul (size_t_mul (P.size t.m_pixel_format) t.m_channel_count) t.m_pixel_count
      = t.m_array_size := by
  obtain ⟨h1, h2, -, h4⟩ := h
  rw [h1, array_size_of_count, h4, h2]

/-- C8: for a tile `T` that satisfies the size invariant, and a collaborator whose
conversion from the format of `T` to itself leaves in the destination the bytes of the
source range, the format-converting constructor applied to `T` and its own format, and the
format+shuffle-converting constructor applied to `T`, its own format and a table for which
the collaborator returns the channel count of `T`, each build a tile with the scalar
attributes of the copy of `T` and a pixel array holding the same bytes as the copy's. -/
theorem C8_same_format_is_copy (P : Pixel) (T : Tile) (shuffle_table : List Nat)
    (storage : Nat) (m : Memory) (hT : size_invariant P T)
    (hconvert : ∀ (b : Bytes) (src_begin src_end dest : Nat),
      read_bytes (P.convert T.m_pixel_format src_begin src_end 1 T.m_pixel_format dest 1 b)
          dest (src_end - src_begin)
        = read_bytes b src_begin (src_end - src_begin))
    (hcount : P.get_dest_channel_count T.m_channel_count shuffle_table = T.m_channel_count)
    (hshuffle : ∀ (b : Bytes) (src_begin src_end dest : Nat),
      read_bytes (P.convert_and_shuffle T.m_pixel_format T.m_channel_count src_begin src_end
          T.m_pixel_format T.m_channel_count dest shuffle_table b) dest (src_end - src_begin)
        = read_bytes b src_begin (src_end - src_begin)) :
    (same_scalars (Tile.Tile_convert P T T.m_pixel_format storage m).1 (Tile.Tile_copy T m).1 ∧
      read_bytes (Tile.Tile_convert P T T.m_pixel_format storage m).2.bytes
          (Tile.Tile_convert P T T.m_pixel_format storage m).1.m_pixel_array
          (Tile.Tile_convert P T T.m_pixel_format storage m).1.m_array_size
        = read_bytes (Tile.Tile_copy T m).2.bytes (Tile.Tile_copy T m).1.m_pixel_array
            (Tile.Tile_copy T m).1.m_array_size) ∧
    (same_scalars (Tile.Tile_shuffle P T T.m_pixel_format shuffle_table storage m).1
        (Tile.Tile_copy T m).1 ∧
      read_bytes (Tile.Tile_shuffle P T T.m_pixel_format shuffle_table storage m).2.bytes
          (Tile.Tile_shuffle P T T.m_pixel_format shuffle_table storage m).1.m_pixel_array
          (Tile.Tile_shuffle P T T.m_pixel_format shuffle_table storage m).1.m_array_size
        = read_bytes (Tile.Tile_copy T m).2.bytes (Tile.Tile_copy T m).1.m_pixel_array
            (Tile.Tile_copy T m).1.m_array_size) := by
  have hsize := array_size_of_invariant P T hT
  obtain ⟨-, h2, h3, -⟩ := hT
  have hps : size_t_mul (P.size T.m_pixel_format) T.m_channel_count = T.m_pixel_size := by
    rw [h3, h2]; rfl
  -- what the copy's pixel array holds
  have hcopy : read_bytes (Tile.Tile_copy T m).2.bytes (Tile.Tile_copy T m).1.m_pixel_array
      (Tile.Tile_copy T m).1.m_array_size
        = read_bytes m.bytes T.m_pixel_array T.m_array_size :=
    read_bytes_memcpy _ _ _ _
  have hsub : T.m_pixel_array + T.m_array_size - T.m_pixel_array = T.m_array_size :=
    Nat.add_sub_cancel_left _ _
  refine ⟨⟨⟨rfl, rfl, rfl, rfl, rfl, h2.symm, hps, hsize⟩, ?_⟩,
    ⟨⟨rfl, rfl, hcount, rfl, rfl, h2.symm, ?_, ?_⟩, ?_⟩⟩
  · rw [hcopy]
    have e : (Tile.Tile_convert P T T.m_pixel_format storage m).1.m_array_size
        = T.m_array_size := hsize
    rw [e]
    show read_bytes (P.convert _ _ _ _ _ _ _ _) _ _ = _
    rw [allocate_pixel_array_bytes]
    have := hconvert m.bytes T.m_pixel_array (T.m_pixel_array + T.m_array_size)
      (Tile.Tile_convert P T T.m_pixel_format storage m).1.m_pixel_array
    rw [hsub] at this
    exact this
  · show size_t_mul (P.size T.m_pixel_format)
        (P.get_dest_channel_count T.m_channel_count shuffle_table) = T.m_pixel_size
    rw [hcount, hps]
  · show size_t_mul (size_t_mul (P.size T.m_pixel_format)
        (P.get_dest_channel_count T.m_channel_count shuffle_table)) T.m_pixel_count
          = T.m_array_size
    rw [hcount, hsize]
  · rw [hcopy]
    have e : (Tile.Tile_shuffle P T T.m_pixel_format shuffle_table storage m).1.m_array_size
        = T.m_array_size := by
      show size_t_mul (size_t_mul (P.size T.m_pixel_format)
        (P.get_dest_channel_count T.m_channel_count shuffle_table)) T.m_pixel_count
          = T.m_array_size
      rw [hcount, hsize]
    rw [e]
    show read_bytes (P.convert_and_shuffle _ _ _ _ _ _ _ _ _) _ _ = _
    rw [allocate_pixel_array_bytes]
    have := hshuffle m.bytes T.m_pixel_array (T.m_pixel_array + T.m_array_size)
      (Tile.Tile_shuffle P T T.m_pixel_format shuffle_table storage m).1.m_pixel_array
    rw [hsub] at this
    show read_bytes (P.convert_and_shuffle T.m_pixel_format T.m_channel_count T.m_pixel_array
      (T.m_pixel_array + T.m_array_size) T.m_pixel_format
      (P.get_dest_channel_count T.m_channel_count shuffle_table)
      (Tile.Tile_shuffle P T T.m_pixel_format shuffle_table storage m).1.m_pixel_array
      shuffle_table m.bytes) _ _ = _
    rw [hcount]
    exact this

/-- C8 at work: with the stand-in collaborator, `example_tile` converted to its own 8-bit
format, with or without the table `[0, 1, 2]` that keeps its three channels, has the
scalar attributes of its copy and the same 24 bytes. -/
theorem C8_same_format_is_copy_witness :
    (size_invariant stub_Pixel example_tile ∧
      stub_Pixel.get_dest_channel_count example_tile.m_channel_count [0, 1, 2]
        = example_tile.m_channel_count) ∧
    same_scalars (Tile.Tile_convert stub_Pixel example_tile 0 0 example_memory).1
      (Tile.Tile_copy example_tile example_memory).1 ∧
    read_bytes (Tile.Tile_convert stub_Pixel example_tile 0 0 example_memory).2.bytes 25 24
      = read_bytes (Tile.Tile_copy example_tile example_memory).2.bytes 25 24 ∧
    same_scalars (Tile.Tile_shuffle stub_Pixel example_tile 0 [0, 1, 2] 0 example_memory).1
      (Tile.Tile_copy example_tile example_memory).1 ∧
    read_bytes
        (Tile.Tile_shuffle stub_Pixel example_tile 0 [0, 1, 2] 0 example_memory).2.bytes 25 24
      = read_bytes (Tile.Tile_copy example_tile example_memory).2.bytes 25 24 := by
  have hex : size_invariant stub_Pixel example_tile := by
    unfold size_invariant; decide
  have h := C8_same_format_is_copy stub_Pixel example_tile [0, 1, 2] 0 example_memory hex
    (fun b src_begin src_end dest => read_bytes_memcpy b dest src_begin (src_end - src_begin))
    (by decide)
    (fun b src_begin src_end dest => read_bytes_memcpy b dest src_begin (src_end - src_begin))
  exact ⟨⟨hex, by decide⟩, h.1.1, h.1.2, h.2.1, h.2.2⟩

/-! ## Serialization -/

/-- C9: `serialize` and `deserialize` end with `ExceptionNotImplemented` for every tile,
every handle and every object behind it, and leave the tile, that object and the memory
as they were. -/
theorem C9_serialize_not_implemented {S D : Type} (t : Tile) (m : Memory)
    (serializer deserializer : Nat) (s : S) (d : D) :
    StateT.run (ExceptT.run (Tile.serialize serializer)) (t, s, m)
      = (Except.error Exception.ExceptionNotImplemented, (t, s, m)) ∧
    StateT.run (ExceptT.run (Tile.deserialize deserializer)) (t, d, m)
      = (Except.error Exception.ExceptionNotImplemented, (t, d, m)) :=
  ⟨rfl, rfl⟩

/-! ## Violated preconditions -/

/-- C10: the constructor of a new tile called with a width, a height or a channel count
of zero ends with a failed assertion; it returns no tile. -/
theorem C10_zero_dimension_fails (P : Pixel) (width height channel_count : Nat)
    (pixel_format : PixelFormat) (storage : Nat) (m : Memory)
    (h0 : width = 0 ∨ height = 0 ∨ channel_count = 0) :
    Tile.Tile_new P width height channel_count pixel_format storage m
      = Except.error Exception.assertion_failed ∧
    ∀ t m1, Tile.Tile_new P width height channel_count pixel_format storage m
      ≠ Except.ok (t, m1) := by
  have h : Tile.Tile_new P width height channel_count pixel_format storage m
      = Except.error Exception.assertion_failed := by
    unfold Tile.Tile_new
    rcases h0 with h | h | h
    · simp [h]
    · simp [h]
    · simp [h]
  refine ⟨h, ?_⟩
  intro t m1
  rw [h]
  intro hne
  cases hne

/-- C10 at work: a new tile of width 0 is refused. -/
theorem C10_zero_dimension_fails_witness :
    ((0 : Nat) = 0 ∨ 2 = 0 ∨ 3 = 0) ∧
    Tile.Tile_new stub_Pixel 0 2 3 0 0 empty_memory
      = Except.error Exception.assertion_failed :=
  ⟨Or.inl rfl, (C10_zero_dimension_fails stub_Pixel 0 2 3 0 0 empty_memory (Or.inl rfl)).1⟩

/-! ## Size accounting -/

/-- The figure of `dynamic_sizeof` is the sum of its two terms modulo `2 ^ 64`. -/
theorem dynamic_sizeof_eq (sizeof_Tile : Nat) (t : Tile) :
    dynamic_sizeof sizeof_Tile t = (sizeof_Tile + t.m_array_size) % 2 ^ 64 := rfl

/-- Two regions of the address space that do not overlap and avoid the null address have
sizes whose sum is a `size_t`: the sum of `dynamic_sizeof` does not wrap. -/
theorem dynamic_sizeof_of_in_address_space (sizeof_Tile self : Nat) (t : Tile)
    (h : in_address_space sizeof_Tile self t) :
    dynamic_sizeof sizeof_Tile t = sizeof_Tile + t.m_array_size := by
  obtain ⟨h1, h2, h3, h4, h5⟩ := h
  rw [dynamic_sizeof_eq]
  apply Nat.mod_eq_of_lt
  omega

/-- A tile in the address space whose owned block has `m_array_size` bytes has its
footprint reported. -/
theorem reports_footprint_of_owned_block (sizeof_Tile self : Nat) (before : List Event)
    (t : Tile) (m1 : Memory) (h : owned_block_matches before t m1)
    (hreal : in_address_space sizeof_Tile self t) :
    reports_footprint sizeof_Tile before t m1 := by
  intro ho
  exact ⟨t.m_array_size, h ho, dynamic_sizeof_of_in_address_space sizeof_Tile self t hreal⟩

/-- Outside the address space the sum wraps: for a tile that is given the address 1 as
storage and whose `array_size` is `2 ^ 64 - 1`, bytes that no memory holds, and an object
size of 88 bytes, `dynamic_sizeof` reports 87. -/
theorem dynamic_sizeof_wraps :
    ∃ t m1, Tile.Tile_new stub_Pixel 18446744073709551615 1 1 0 1 empty_memory
        = Except.ok (t, m1) ∧
      t.m_own_storage = false ∧
      t.m_array_size = 18446744073709551615 ∧
      dynamic_sizeof 88 t = 87 := by
  refine ⟨_, _,
    Tile_new_eq stub_Pixel 18446744073709551615 1 1 0 1 empty_memory (by decide) (by decide)
      (by decide), ?_, ?_, ?_⟩ <;> decide

/-- C11: for every tile that, with its pixel array, lies in the address space (the object
and the array are two regions of the 64-bit address space that do not overlap),
`dynamic_sizeof(tile)` is the size of the `Tile` object plus the tile's `array_size`,
whether the tile owns its storage or borrows it; and for a tile that one of the four
constructors builds and that owns its storage, this figure is the footprint of the tile:
the size of the object plus the length of the block allocated for its pixel array. -/
theorem C11_dynamic_sizeof (sizeof_Tile self : Nat) (t : Tile)
    (hreal : in_address_space sizeof_Tile self t)
    (P : Pixel) (width height channel_count : Nat) (pixel_format : PixelFormat)
    (tile : Tile) (shuffle_table : List Nat) (storage : Nat) (m : Memory)
    (hw : 0 < width) (hh : 0 < height) (hc : 0 < channel_count) :
    dynamic_sizeof sizeof_Tile t = sizeof_Tile + t.m_array_size ∧
    dynamic_sizeof sizeof_Tile t - sizeof_Tile = t.m_array_size ∧
    (∃ t1 m1, Tile.Tile_new P width height channel_count pixel_format storage m
        = Except.ok (t1, m1) ∧
      (in_address_space sizeof_Tile self t1 → reports_footprint sizeof_Tile m.trace t1 m1)) ∧
    (in_address_space sizeof_Tile self (Tile.Tile_convert P tile pixel_format storage m).1 →
      reports_footprint sizeof_Tile m.trace (Tile.Tile_convert P tile pixel_format storage m).1
        (Tile.Tile_convert P tile pixel_format storage m).2) ∧
    (in_address_space sizeof_Tile self
        (Tile.Tile_shuffle P tile pixel_format shuffle_table storage m).1 →
      reports_footprint sizeof_Tile m.trace
        (Tile.Tile_shuffle P tile pixel_format shuffle_table storage m).1
        (Tile.Tile_shuffle P tile pixel_format shuffle_table storage m).2) ∧
    (in_address_space sizeof_Tile self (Tile.Tile_copy tile m).1 →
      reports_footprint sizeof_Tile m.trace (Tile.Tile_copy tile m).1
        (Tile.Tile_copy tile m).2) := by
  have hsum := dynamic_sizeof_of_in_address_space sizeof_Tile self t hreal
  refine ⟨hsum, by rw [hsum]; exact Nat.add_sub_cancel_left _ _, ⟨_, _,
    Tile_new_eq P width height channel_count pixel_format storage m hw hh hc, ?_⟩, ?_, ?_, ?_⟩
  · exact reports_footprint_of_owned_block _ _ _ _ _
      (owned_block_of_contract storage m _ _
        (allocate_pixel_array_contract storage _ m _ _ [] rfl rfl rfl
          (List.append_nil _).symm rfl rfl))
  · exact reports_footprint_of_owned_block _ _ _ _ _
      (owned_block_of_contract storage m _ _
        (allocate_pixel_array_contract storage _ m _ _ _ rfl rfl rfl rfl rfl rfl))
  · exact reports_footprint_of_owned_block _ _ _ _ _
      (owned_block_of_contract storage m _ _
        (allocate_pixel_array_contract storage _ m _ _ _ rfl rfl rfl rfl rfl rfl))
  · apply reports_footprint_of_owned_block
    intro _
    show allocations (m.trace ++ [Event.new_array m.brk tile.m_array_size]) = _
    rw [allocations_append]
    rfl

/-- C11 at work: with the `Tile` object of 88 bytes at address 1000, `dynamic_sizeof`
reports `88 + 24 = 112` for `example_tile`, whose 24 bytes are at address 1, and as much
for its copy, which owns the block of 24 bytes allocated at address 25. -/
theorem C11_dynamic_sizeof_witness :
    (in_address_space 88 1000 example_tile ∧ (0 < 4 ∧ 0 < 2 ∧ 0 < 3) ∧
      in_address_space 88 1000 (Tile.Tile_copy example_tile example_memory).1) ∧
    dynamic_sizeof 88 example_tile = 88 + 24 ∧
    (∃ len, allocations (Tile.Tile_copy example_tile example_memory).2.trace
        = allocations example_memory.trace ++ [(25, len)] ∧
      dynamic_sizeof 88 (Tile.Tile_copy example_tile example_memory).1 = 88 + len) := by
  have h1 : in_address_space 88 1000 example_tile := by
    unfold in_address_space; decide
  have h2 : in_address_space 88 1000 (Tile.Tile_copy example_tile example_memory).1 := by
    unfold in_address_space; decide
  obtain ⟨hsum, -, -, -, -, hcopy⟩ :=
    C11_dynamic_sizeof 88 1000 example_tile h1 stub_Pixel 4 2 3 0 example_tile [0, 1, 2] 0
      example_memory (by decide) (by decide) (by decide)
  exact ⟨⟨h1, by decide, h2⟩, hsum, hcopy h2 rfl⟩

/-! ## Stream output of sequences -/

/-- For a positive `size_t` value `n`, `n - 1` does not wrap. -/
theorem size_t_sub_one {n : Nat} (h0 : 0 < n) (hn : n < SIZE_T_RANGE) :
    size_t_sub n 1 = n - 1 := by
  unfold size_t_sub to_size_t
  have e : n + SIZE_T_RANGE - 1 = (n - 1) + SIZE_T_RANGE := by omega
  rw [e, Nat.add_mod_right]
  exact Nat.mod_eq_of_lt (by omega)

/-- `0 - 1` wraps to the largest `size_t` value. -/
theorem size_t_sub_zero_one : size_t_sub 0 1 = 18446744073709551615 := by decide

/-- The loop of `write_sequence` and of `write_sequence_quotes` over `k` elements from index
`i` on, all inside the sequence: each element is written by `put`, in index order. -/
theorem for_loop_spec {α : Type} (sequence : List α) (put : ostream → α → ostream)
    (text : α → List Char) (hput : ∀ s x, put s x = s ++ (text x ++ [space])) :
    ∀ (k i : Nat) (s : ostream), i + k ≤ sequence.length →
      for_loop (fun i s => (sequence[i]?).map (fun x => put s x)) k i s
        = some (s ++ each_followed_by_space (((sequence.drop i).take k).map text)) := by
  intro k
  induction k with
  | zero =>
    intro i s _
    simp [for_loop, each_followed_by_space]
  | succ k ih =>
    intro i s h
    have hi : i < sequence.length := by omega
    have hd : sequence.drop i = sequence[i] :: sequence.drop (i + 1) :=
      List.drop_eq_getElem_cons hi
    rw [for_loop, List.getElem?_eq_getElem hi]
    simp only [Option.map_some', Option.some_bind]
    rw [ih (i + 1) _ (by omega), hd, hput]
    simp [each_followed_by_space, List.append_assoc]

/-- Texts separated by spaces, the last one set apart. -/
theorem separated_by_spaces_append_singleton (l : List (List Char)) (x : List Char) :
    separated_by_spaces (l ++ [x]) = each_followed_by_space l ++ x := by
  induction l with
  | nil => rfl
  | cons a l ih =>
    cases l with
    | nil => simp [separated_by_spaces, each_followed_by_space]
    | cons b l =>
      show (a ++ [space]) ++ separated_by_spaces ((b :: l) ++ [x]) = _
      rw [ih]
      simp [each_followed_by_space, List.append_assoc]

/-- What `write_sequence` writes for a positive `n` within the sequence. -/
theorem write_sequence_eq {α : Type} (render : α → List Char) (s : ostream)
    (sequence : List α) (n : Nat) (h0 : 0 < n) (hn : n ≤ sequence.length)
    (hlt : n < SIZE_T_RANGE) :
    iostreamop_impl.write_sequence render s sequence n
      = some (s ++ separated_by_spaces ((sequence.take n).map render)) := by
  have hlast : n - 1 < sequence.length := by omega
  have hloop := for_loop_spec sequence (fun s x => (s ++ render x) ++ [space]) render
    (fun s x => by simp [List.append_assoc]) (n - 1) 0 s (by omega)
  have htake : sequence.take n = sequence.take (n - 1) ++ [sequence[n - 1]] := by
    have e : n = (n - 1) + 1 := by omega
    conv_lhs => rw [e]
    rw [List.take_succ, List.getElem?_eq_getElem hlast]
    rfl
  unfold iostreamop_impl.write_sequence
  rw [if_pos h0, size_t_sub_one h0 hlt, hloop, List.getElem?_eq_getElem hlast]
  simp only [Option.some_bind, Option.map_some', List.drop_zero]
  rw [htake, List.map_append, List.map_singleton, separated_by_spaces_append_singleton,
    List.append_assoc]

/-- `write_sequence_quotes` is `write_sequence` for the quoted rendering, whatever `n`. -/
theorem write_sequence_quotes_eq {α : Type} (render : α → List Char) (s : ostream)
    (sequence : List α) (n : Nat) :
    iostreamop_impl.write_sequence_quotes render s sequence n
      = iostreamop_impl.write_sequence (quoted render) s sequence n := by
  unfold iostreamop_impl.write_sequence_quotes iostreamop_impl.write_sequence
  simp [quoted, List.append_assoc]

/-- C12: for `n` not exceeding the length of the sequence, `write_sequence(s, sequence, n)`
returns the stream with the renderings of the first `n` elements appended in index order,
a single space between two neighbours and none before the first or after the last; for
`n = 0` it appends nothing, whatever the sequence (`n - 1`, which would wrap to
`2 ^ 64 - 1`, is not used); for `n = 1` it appends the rendering of the first element and
no space; and `operator<<` of a vector writes all its elements this way. -/
theorem C12_write_sequence {α : Type} (render : α → List Char) (s : ostream)
    (sequence : List α) (n : Nat) (hn : n ≤ sequence.length) (hlt : n < 2 ^ 64) :
    iostreamop_impl.write_sequence render s sequence n
      = some (s ++ separated_by_spaces ((sequence.take n).map render)) ∧
    iostreamop_impl.write_sequence render s sequence 0 = some s ∧
    (∀ (x : α) (rest : List α),
      iostreamop_impl.write_sequence render s (x :: rest) 1 = some (s ++ render x)) ∧
    (sequence.length < 2 ^ 64 →
      operator_out_vector render s sequence
        = some (s ++ separated_by_spaces (sequence.map render))) := by
  have hM : SIZE_T_RANGE = 2 ^ 64 := rfl
  have hzero : ∀ l : List α, iostreamop_impl.write_sequence render s l 0 = some s := by
    intro l
    unfold iostreamop_impl.write_sequence
    rw [if_neg (by omega)]
  have hgen : ∀ (l : List α) (k : Nat), k ≤ l.length → k < 2 ^ 64 →
      iostreamop_impl.write_sequence render s l k
        = some (s ++ separated_by_spaces ((l.take k).map render)) := by
    intro l k hk hkl
    rcases Nat.eq_zero_or_pos k with h0 | hpos
    · rw [h0, hzero]
      simp [separated_by_spaces]
    · exact write_sequence_eq render s l k hpos hk (by rw [hM]; exact hkl)
  refine ⟨hgen sequence n hn hlt, hzero sequence, ?_, ?_⟩
  · intro x rest
    rw [hgen (x :: rest) 1 (by simp) (by norm_num)]
    simp [separated_by_spaces]
  · intro hlen
    unfold operator_out_vector
    rw [hgen sequence sequence.length (Nat.le_refl _) hlen, List.take_length]

/-- C12 at work: the first two of the three elements `a`, `b`, `c` are written as `a b`. -/
theorem C12_write_sequence_witness :
    (2 ≤ ['a', 'b', 'c'].length ∧ 2 < 2 ^ 64) ∧
    iostreamop_impl.write_sequence (fun c : Char => [c]) [] ['a', 'b', 'c'] 2
      = some ['a', space, 'b'] :=
  ⟨⟨by decide, by decide⟩,
    (C12_write_sequence (fun c : Char => [c]) [] ['a', 'b', 'c'] 2 (by decide)
      (by decide)).1⟩

/-- Without its test `n > 0`, the loop of `write_sequence` would run for `n = 0` with the
bound `0 - 1 = 2 ^ 64 - 1`, and read outside an empty sequence at once. -/
theorem unguarded_loop_reads_outside {α : Type} (render : α → List Char) (s : ostream) :
    for_loop (fun i s => (([] : List α)[i]?).map (fun x => (s ++ render x) ++ [space]))
      (size_t_sub 0 1) 0 s = none := by
  rw [size_t_sub_zero_one]
  show for_loop _ (18446744073709551614 + 1) 0 s = none
  rw [for_loop]
  rfl

/-- What `write_sequence` writes for any `n` within the sequence, `0` included. -/
theorem write_sequence_within {α : Type} (render : α → List Char) (s : ostream)
    (sequence : List α) (n : Nat) (hn : n ≤ sequence.length) (hlt : n < 2 ^ 64) :
    iostreamop_impl.write_sequence render s sequence n
      = some (s ++ separated_by_spaces ((sequence.take n).map render)) := by
  rcases Nat.eq_zero_or_pos n with h0 | hpos
  · subst h0
    unfold iostreamop_impl.write_sequence
    rw [if_neg (by omega)]
    simp [separated_by_spaces]
  · exact write_sequence_eq render s sequence n hpos hn hlt

/-- C13: for `n` not exceeding the length of the sequence, `write_sequence_quotes` returns
what `write_sequence` returns for the rendering that puts each element between a pair of
double quotes: the stream with the first `n` elements appended, each quoted, a single
space between two neighbours and none after the last; for `n = 0` it appends nothing; and
`operator<<` of a vector of strings writes all its elements this way. -/
theorem C13_write_sequence_quotes {α : Type} (render : α → List Char) (s : ostream)
    (sequence : List α) (n : Nat) (hn : n ≤ sequence.length) (hlt : n < 2 ^ 64) :
    iostreamop_impl.write_sequence_quotes render s sequence n
      = iostreamop_impl.write_sequence (quoted render) s sequence n ∧
    iostreamop_impl.write_sequence_quotes render s sequence n
      = some (s ++ separated_by_spaces ((sequence.take n).map (quoted render))) ∧
    iostreamop_impl.write_sequence_quotes render s sequence 0 = some s ∧
    (sequence.length < 2 ^ 64 →
      operator_out_string_vector render s sequence
        = some (s ++ separated_by_spaces (sequence.map (quoted render)))) := by
  refine ⟨write_sequence_quotes_eq render s sequence n, ?_, ?_, ?_⟩
  · rw [write_sequence_quotes_eq]
    exact write_sequence_within (quoted render) s sequence n hn hlt
  · rw [write_sequence_quotes_eq,
      write_sequence_within (quoted render) s sequence 0 (Nat.zero_le _) (by norm_num)]
    simp [separated_by_spaces]
  · intro hlen
    unfold operator_out_string_vector
    rw [write_sequence_quotes_eq,
      write_sequence_within (quoted render) s sequence sequence.length (Nat.le_refl _) hlen,
      List.take_length]

/-- C13 at work: the first two of the three elements `a`, `b`, `c` are written as
`"a" "b"`. -/
theorem C13_write_sequence_quotes_witness :
    (2 ≤ ['a', 'b', 'c'].length ∧ 2 < 2 ^ 64) ∧
    iostreamop_impl.write_sequence_quotes (fun c : Char => [c]) [] ['a', 'b', 'c'] 2
      = some [double_quote, 'a', double_quote, space, double_quote, 'b', double_quote] :=
  ⟨⟨by decide, by decide⟩,
    (C13_write_sequence_quotes (fun c : Char => [c]) [] ['a', 'b', 'c'] 2 (by decide)
      (by decide)).2.1⟩

end foundation
